import Mathlib

/-!
Verification development for the joseflys aviation-data normalizer.

The repository contains three Python scripts:
* airpots-formatter.py      (the Airport Normalizer),
* scripts/runways-formatter.py  (the Runway Normalizer / Surface Classifier),
* scripts/add-elevation.py  (the Elevation Enricher).

This file gives a shallow embedding of the data-processing core of those
scripts and proves the frozen specification claims about them.

Modelling conventions:
* Python strings are Lean `String`; character-level operations work on the
  underlying `List Char` (code points), which matches Python string
  indexing and comparison semantics.  Case mapping and whitespace are
  modelled at ASCII level (the inputs and table keys the scripts consume
  are ASCII apart from one mojibake table key, which has no cased letters).
* Python `float` values are modelled exactly: a parsed decimal literal
  `d.ddd e±k` is kept as the exact value `num / 10 ^ e10` (`DecFloat`),
  plus the special values `inf`, `-inf` and `nan`.  Binary-64 rounding and
  overflow-to-infinity of huge literals are not modelled; no claim in this
  development depends on the 53-bit mantissa.
* A raw CSV row is a finite map `String → Option String` (`Row`); a
  missing key is `none`, matching `dict.get`.
* Fallible Python code is embedded in `Except PyExn`; an exception that a
  script catches is folded away exactly where the script catches it
  (`except ValueError`), and any other exception propagates.
-/

namespace JoseFlys

deriving instance DecidableEq for Except

/-- Python exceptions that the scripts can raise while parsing numbers:
the interpreter raises `ValueError` for a malformed literal or for
`int(nan)`, and `OverflowError` for `int(inf)`. -/
inductive PyExn
  | valueError
  | overflowError
deriving DecidableEq

/-- Exact model of a Python `float` value as produced by `float(str)`:
a finite value is the exact rational `num / 10 ^ e10` of the decimal
literal, and the special values mirror IEEE infinities and NaN. -/
inductive PyFloat
  | finite (num : ℤ) (e10 : ℕ)
  | inf
  | neginf
  | nan
deriving DecidableEq

/-- ASCII whitespace stripped by Python `str.strip()` and by `float()` /
`int()` around a numeric literal (space, tab, newline, carriage return,
vertical tab, form feed). -/
def pySpace (c : Char) : Bool :=
  c.isWhitespace || c = '\x0b' || c = '\x0c'

/-- Strip `pySpace` characters from both ends of a character list. -/
def pyStripL (l : List Char) : List Char :=
  ((l.dropWhile pySpace).reverse.dropWhile pySpace).reverse

/-- Embedding of Python `str.strip()`. -/
def pyStrip (s : String) : String :=
  ⟨pyStripL s.data⟩

/-- Embedding of Python `str.upper()` (ASCII case mapping). -/
def pyUpper (s : String) : String :=
  ⟨s.data.map Char.toUpper⟩

/-- Embedding of the Python slice `s[:n]` on a string (by code points). -/
def pySlice (s : String) (n : ℕ) : String :=
  ⟨s.data.take n⟩

/-- Value of a list of decimal digit characters read left to right. -/
def digitsToNat (l : List Char) : ℕ :=
  l.foldl (fun n c => 10 * n + (c.toNat - '0'.toNat)) 0

/-- CPython underscore rule for numeric literals: every underscore must be
surrounded by digits.  Sign, dot and exponent characters are left in
place; the scan only constrains the neighbourhoods of underscores. -/
def usOK : List Char → Bool
  | d :: '_' :: c :: rest => d.isDigit && c.isDigit && usOK (c :: rest)
  | '_' :: _ => false
  | _ :: rest => usOK rest
  | [] => true

/-- Split a character list into its leading run of decimal digits and the
remainder. -/
def splitDigits (cs : List Char) : List Char × List Char :=
  (cs.takeWhile Char.isDigit, cs.dropWhile Char.isDigit)

/-- Strip an optional leading sign, returning whether it was a minus. -/
def splitSign : List Char → Bool × List Char
  | '+' :: r => (false, r)
  | '-' :: r => (true, r)
  | cs => (false, cs)

/-- Shared tail of the decimal parse: mantissa digits `ip`/`fp` seen,
`r3` still to consume (at least one mantissa digit required, optional
exponent, whole input consumed). -/
def parsePyDecimalCore (ip fp r3 : List Char) : Option (ℤ × ℕ) :=
  if ip = [] ∧ fp = [] then none
  else
    let mant : ℤ := (digitsToNat (ip ++ fp) : ℤ)
    match r3 with
    | [] => some (mant, fp.length)
    | e :: r4 =>
      if e = 'e' ∨ e = 'E' then
        let sp := splitSign r4
        let p3 := splitDigits sp.2
        if p3.1 = [] ∨ p3.2 ≠ [] then none
        else
          let ex := digitsToNat p3.1
          if sp.1 then some (mant, fp.length + ex)
          else some (mant * (10 : ℤ) ^ ex, fp.length)
      else none

/-- Parse an underscore-free decimal float literal
`digits [. digits] [(e|E) [sign] digits]` (at least one mantissa digit,
whole input consumed), returning the exact value as `(num, e10)` with
value `num / 10 ^ e10`. -/
def parsePyDecimal (cs : List Char) : Option (ℤ × ℕ) :=
  let p1 := splitDigits cs
  let ip := p1.1
  match p1.2 with
  | '.' :: r2 =>
    let p2 := splitDigits r2
    parsePyDecimalCore ip p2.1 p2.2
  | _ => parsePyDecimalCore ip [] p1.2

/-- Embedding of CPython `float(s)` on strings: strip whitespace, read an
optional sign, then either a case-insensitive `inf` / `infinity` / `nan`
keyword or a decimal literal with CPython underscore placement.  Returns
`none` where CPython raises `ValueError`. -/
def pyFloatOfString (s : String) : Option PyFloat :=
  let cs0 := pyStripL s.data
  let sp := splitSign cs0
  let neg := sp.1
  let cs1 := sp.2
  let up := cs1.map Char.toUpper
  if up = "INF".data ∨ up = "INFINITY".data then
    some (if neg then PyFloat.neginf else PyFloat.inf)
  else if up = "NAN".data then some PyFloat.nan
  else if usOK cs1 then
    match parsePyDecimal (cs1.filter (fun c => c ≠ '_')) with
    | some (n, e) => some (PyFloat.finite (if neg then -n else n) e)
    | none => none
  else none

/-- Truncation toward zero of `num / 10 ^ e10`, the value computed by
Python `int(f)` for a finite float `f`. -/
def truncDF (num : ℤ) (e10 : ℕ) : ℤ :=
  if 0 ≤ num then (num.natAbs / 10 ^ e10 : ℕ)
  else -((num.natAbs / 10 ^ e10 : ℕ) : ℤ)

/-- Embedding of Python `int(f)` on a float `f`: truncate a finite value
toward zero, raise `ValueError` on NaN and `OverflowError` on the
infinities. -/
def pyIntOfFloat : PyFloat → Except PyExn ℤ
  | PyFloat.finite n e => Except.ok (truncDF n e)
  | PyFloat.nan => Except.error PyExn.valueError
  | PyFloat.inf => Except.error PyExn.overflowError
  | PyFloat.neginf => Except.error PyExn.overflowError

/-- Round an integer-divided value `num / 10 ^ e10` to the nearest
integer, ties to even — the rounding CPython `round` uses. -/
def roundHalfEvenDF (num : ℤ) (e10 : ℕ) : ℤ :=
  let d : ℤ := (10 : ℤ) ^ e10
  let f := Int.fdiv num d
  let r := num - f * d
  if 2 * r < d then f
  else if d < 2 * r then f + 1
  else if f % 2 = 0 then f else f + 1

/-- Embedding of Python `round(f, nd)` on a float value (exact-decimal
model; `round` fixes NaN and the infinities). -/
def pyRoundF (f : PyFloat) (nd : ℕ) : PyFloat :=
  match f with
  | PyFloat.finite n e =>
    if nd ≤ e then PyFloat.finite (roundHalfEvenDF n (e - nd)) nd
    else PyFloat.finite (n * (10 : ℤ) ^ (nd - e)) nd
  | x => x

/-- Embedding of `parse_float` from scripts/runways-formatter.py
(lines 92-99): absent for blank input, otherwise the result of `float`,
with the `ValueError` of a malformed literal caught and mapped to absent.
`float` raises nothing but `ValueError` on a string, so the function is
total. -/
def parse_float (val : String) : Option PyFloat :=
  if pyStrip val = "" then none
  else pyFloatOfString val

/-- Embedding of `parse_int` from scripts/runways-formatter.py
(lines 102-109): absent for blank input, otherwise `int(float(val))` with
`except ValueError` catching both the malformed-literal error of `float`
and the NaN error of `int`.  The `OverflowError` that `int` raises on an
infinite float is not caught by the script and escapes to the caller. -/
def parse_int (val : String) : Except PyExn (Option ℤ) :=
  if pyStrip val = "" then Except.ok none
  else
    match pyFloatOfString val with
    | none => Except.ok none
    | some f =>
      match pyIntOfFloat f with
      | Except.ok z => Except.ok (some z)
      | Except.error PyExn.valueError => Except.ok none
      | Except.error e => Except.error e

example : parse_int "120.0" = Except.ok (some 120) := by decide
example : parse_int "  " = Except.ok none := by decide
example : parse_int "abc" = Except.ok none := by decide
example : parse_int "nan" = Except.ok none := by decide
example : parse_int "inf" = Except.error PyExn.overflowError := by decide
example : parse_int "-5" = Except.ok (some (-5)) := by decide
example : parse_int "1_2.5e1" = Except.ok (some 125) := by decide
example : parse_float "1__2" = none := by decide
example : parse_float "-inf" = some PyFloat.neginf := by decide
example : parse_float ".5" = some (PyFloat.finite 5 1) := by decide
example : parse_float "1." = some (PyFloat.finite 1 0) := by decide
example : parse_float "." = none := by decide
example : parse_float "1e-2" = some (PyFloat.finite 1 2) := by decide
example : pyRoundF (PyFloat.finite 12345 4) 1 = PyFloat.finite 12 1 := by decide
example : pyRoundF (PyFloat.finite 125 2) 1 = PyFloat.finite 12 1 := by decide
example : pyRoundF (PyFloat.finite 135 2) 1 = PyFloat.finite 14 1 := by decide

/-- Embedding of the `SURFACE_CATEGORIES` dict of
scripts/runways-formatter.py (lines 29-89) as a lookup function; the
dict literal has no duplicate keys, so first-match lookup is the dict.
The key written `PIÃ‡` reproduces the mojibake key of the
source byte for byte. -/
def SURFACE_CATEGORIES : String → Option String
  | "A" => some "PG"
  | "ASP" => some "PG"
  | "ASF" => some "PG"
  | "ASPH" => some "PG"
  | "ASPH-G" => some "PG"
  | "C" => some "PG"
  | "CON" => some "PG"
  | "CONC" => some "PG"
  | "CONC-G" => some "PG"
  | "CG" => some "PG"
  | "TAR" => some "PG"
  | "BIT" => some "PG"
  | "MAC" => some "PG"
  | "PAV" => some "PG"
  | "AG" => some "PG"
  | "CCN" => some "PG"
  | "PFC" => some "PG"
  | "PEM" => some "PG"
  | "APS" => some "PG"
  | "ASB" => some "PG"
  | "C0N" => some "PG"
  | "BRI" => some "PG"
  | "LIM" => some "PG"
  | "B" => some "PG"
  | "OON" => some "PG"
  | "PAD" => some "PG"
  | "PAD/CON" => some "PG"
  | "ASPHALT" => some "PG"
  | "CONCRETE" => some "PG"
  | "BLACKTOP" => some "PG"
  | "BLA" => some "PG"
  | "\x27ASPHALT\x27" => some "PG"
  | "\x27CONCRETE\x27" => some "PG"
  | "\x27AS" => some "PG"
  | "\x27CO" => some "PG"
  | "RAI" => some "PP"
  | "PSP" => some "PP"
  | "M" => some "PP"
  | "MAT" => some "PP"
  | "MET" => some "PP"
  | "ALU" => some "PP"
  | "OIL" => some "PP"
  | "STE" => some "PP"
  | "PER" => some "PP"
  | "ROO" => some "PP"
  | "DEC" => some "PP"
  | "NEO" => some "PP"
  | "OLD" => some "PP"
  | "ROU" => some "PP"
  | "?ST" => some "PP"
  | "PCN" => some "PP"
  | "T" => some "GG"
  | "TUR" => some "GG"
  | "TG" => some "GG"
  | "TURF" => some "GG"
  | "TURF-G" => some "GG"
  | "GR" => some "GG"
  | "GRS" => some "GG"
  | "GRA" => some "GG"
  | "GRASS" => some "GG"
  | "G" => some "GG"
  | "TRT" => some "GG"
  | "ERB" => some "GG"
  | "HER" => some "GG"
  | "PAD/GRASS" => some "GG"
  | "TF" => some "GF"
  | "TURF-F" => some "GF"
  | "SOD" => some "GF"
  | "SOF" => some "GF"
  | "GRE" => some "GV"
  | "GRV" => some "GV"
  | "GRR" => some "GV"
  | "GRVL" => some "GV"
  | "GVL" => some "GV"
  | "STO" => some "GV"
  | "ROC" => some "GV"
  | "COR" => some "GV"
  | "PIE" => some "GV"
  | "PIC" => some "GV"
  | "PIÃ‡" => some "GV"
  | "CRU" => some "GV"
  | "LOO" => some "GV"
  | "ROL" => some "GV"
  | "ZAH" => some "GV"
  | "OLI" => some "GV"
  | "PAC" => some "GV"
  | "YEL" => some "GV"
  | "BRO" => some "GV"
  | "RED" => some "GV"
  | "B/G" => some "GV"
  | "D" => some "DT"
  | "DIR" => some "DT"
  | "DIRT" => some "DT"
  | "EAR" => some "DT"
  | "SOI" => some "DT"
  | "CLA" => some "DT"
  | "SHA" => some "DT"
  | "VOL" => some "DT"
  | "TER" => some "DT"
  | "NAT" => some "DT"
  | "COM" => some "DT"
  | "UNP" => some "DT"
  | "MUR" => some "DT"
  | "LOA" => some "DT"
  | "HAR" => some "DT"
  | "EER" => some "DT"
  | "SIL" => some "DT"
  | "LAT" => some "DT"
  | "U" => some "DT"
  | "UNS" => some "DT"
  | "UNSEALED" => some "DT"
  | "NOT" => some "DT"
  | "S" => some "SD"
  | "SAN" => some "SD"
  | "SAND" => some "SD"
  | "W" => some "WT"
  | "WAT" => some "WT"
  | "WATER" => some "WT"
  | "SEA" => some "WT"
  | "LAK" => some "WT"
  | "MAR" => some "WT"
  | "ICE" => some "WT"
  | "BLU" => some "WT"
  | _ => none

/-- The normalisation step `surface.upper().strip()` shared by the
classifier and its claim-level restatement. -/
def normSurface (surface : String) : String :=
  pyStrip (pyUpper surface)

/-- Embedding of `categorize_surface` from scripts/runways-formatter.py
(lines 112-136): uppercase and strip, empty means unidentified (`none`),
then the table is consulted for the whole string, its first three, first
two and first one characters, with the source's length guards; an
unmatched string is unidentified (`none`). -/
def categorize_surface (surface : String) : Option String :=
  if normSurface surface = "" then none
  else if (SURFACE_CATEGORIES (normSurface surface)).isSome then
    SURFACE_CATEGORIES (normSurface surface)
  else if 3 ≤ (normSurface surface).data.length ∧
      (SURFACE_CATEGORIES (pySlice (normSurface surface) 3)).isSome then
    SURFACE_CATEGORIES (pySlice (normSurface surface) 3)
  else if 2 ≤ (normSurface surface).data.length ∧
      (SURFACE_CATEGORIES (pySlice (normSurface surface) 2)).isSome then
    SURFACE_CATEGORIES (pySlice (normSurface surface) 2)
  else if 1 ≤ (normSurface surface).data.length ∧
      (SURFACE_CATEGORIES (pySlice (normSurface surface) 1)).isSome then
    SURFACE_CATEGORIES (pySlice (normSurface surface) 1)
  else none

/-- Restatement of the Surface Classifier following the words of the
claim: normalize, then return the table entry for the first of the whole
string, its first 3, first 2 and first 1 characters that is a key of the
table, and unidentified (`none`) otherwise.  Stated separately from
`categorize_surface` so that the claim theorem compares the two. -/
def surfaceCascadeClaim (surface : String) : Option String :=
  if normSurface surface = "" then none
  else
    (SURFACE_CATEGORIES (normSurface surface)).orElse fun _ =>
      (SURFACE_CATEGORIES (pySlice (normSurface surface) 3)).orElse fun _ =>
        (SURFACE_CATEGORIES (pySlice (normSurface surface) 2)).orElse fun _ =>
          SURFACE_CATEGORIES (pySlice (normSurface surface) 1)

example : categorize_surface "ASXYZ" = some "PG" := by decide
example : categorize_surface "ZZZZZ" = none := by decide
example : categorize_surface " asph-g " = some "PG" := by decide

/-- A raw CSV row: a map from field name to raw string value, `none` for
a missing key (Python `dict.get` on a `csv.DictReader` row). -/
def Row : Type := String → Option String

/-- Embedding of `row.get(key, "")` and of `(row.get(key) or "")`: both
produce the empty string for a missing key and are otherwise the raw
value (Python `or` returns the right operand exactly when the left one is
falsy, and the falsy strings are the empty string). -/
def rowStr (row : Row) (key : String) : String :=
  (row key).getD ""

/-- Embedding of `row.get(key, dflt)` for a non-empty default. -/
def rowStrD (row : Row) (key : String) (dflt : String) : String :=
  (row key).getD dflt

/-- Python truthiness of `row.get(key)`: false for a missing key (`None`)
and for the empty string. -/
def rowTruthy (row : Row) (key : String) : Bool :=
  match row key with
  | none => false
  | some s => s ≠ ""

/-- Embedding of the tests `row.get("lighted", "0") == "1"` and
`row.get("closed", "0") == "1"` of scripts/runways-formatter.py
(lines 205-210). -/
def flagIsOne (row : Row) (key : String) : Bool :=
  rowStrD row key "0" == "1"

/-- The row identical to `row` except that `key` maps to `val`. -/
def insertKey (row : Row) (key val : String) : Row :=
  fun k => if k = key then some val else row k

/-- A runway end as built by `build_runway_end`; `none` fields are the
keys the script leaves out of the emitted dict. -/
structure RunwayEnd where
  id : String
  lat : Option PyFloat
  lon : Option PyFloat
  elev : Option ℤ
  hdg : Option PyFloat
  dt : Option ℤ
deriving DecidableEq

/-- A runway record as assembled in `main` of
scripts/runways-formatter.py; `none` fields are omitted keys. -/
structure RunwayRecord where
  l : Option ℤ
  w : Option ℤ
  s : Option String
  lit : Option ℕ
  cls : Option ℕ
  le : Option RunwayEnd
  he : Option RunwayEnd
deriving DecidableEq

/-- Embedding of `build_runway_end` from scripts/runways-formatter.py
(lines 139-166) for side selector `side` (`le` or `he`): no end without a
non-blank ident; latitude, longitude and heading through `parse_float`
with rounding; elevation through `parse_int`; displaced threshold through
`parse_int`, kept only when strictly positive.  An uncaught exception of
`parse_int` propagates. -/
def build_runway_end (row : Row) (side : String) : Except PyExn (Option RunwayEnd) :=
  if pyStrip (rowStr row (side ++ "_ident")) = "" then Except.ok none
  else
    match parse_int (rowStr row (side ++ "_elevation_ft")) with
    | Except.error e => Except.error e
    | Except.ok elev =>
      match parse_int (rowStr row (side ++ "_displaced_threshold_ft")) with
      | Except.error e => Except.error e
      | Except.ok dtv =>
        Except.ok (some
          { id := pyStrip (rowStr row (side ++ "_ident"))
            lat := (parse_float (rowStr row (side ++ "_latitude_deg"))).map
              (fun f => pyRoundF f 6)
            lon := (parse_float (rowStr row (side ++ "_longitude_deg"))).map
              (fun f => pyRoundF f 6)
            elev := elev
            hdg := (parse_float (rowStr row (side ++ "_heading_degT"))).map
              (fun f => pyRoundF f 1)
            dt := match dtv with
                  | some d => if 0 < d then some d else none
                  | none => none })

/-- Python truthiness applied to an optional int (`if length:`): both
`None` and `0` are falsy. -/
def truthyInt : Option ℤ → Option ℤ
  | some n => if n = 0 then none else some n
  | none => none

/-- Embedding of one iteration of the row loop in `main` of
scripts/runways-formatter.py (lines 180-224): `Except.ok none` when the
row is skipped (blank airport code) or discarded (no ends), and
`Except.ok (some (code, record))` when the record is appended under
`code`.  An uncaught exception of `parse_int` propagates. -/
def processRunwayRow (row : Row) : Except PyExn (Option (String × RunwayRecord)) :=
  if pyStrip (rowStr row "airport_ident") = "" then Except.ok none
  else
    match parse_int (rowStr row "length_ft") with
    | Except.error e => Except.error e
    | Except.ok length =>
      match parse_int (rowStr row "width_ft") with
      | Except.error e => Except.error e
      | Except.ok width =>
        match build_runway_end row "le" with
        | Except.error e => Except.error e
        | Except.ok le =>
          match build_runway_end row "he" with
          | Except.error e => Except.error e
          | Except.ok he =>
            if le.isSome || he.isSome then
              Except.ok (some (pyStrip (rowStr row "airport_ident"),
                { l := truthyInt length
                  w := truthyInt width
                  s := categorize_surface (pyStrip (rowStr row "surface"))
                  lit := if flagIsOne row "lighted" then some 1 else none
                  cls := if flagIsOne row "closed" then some 1 else none
                  le := le
                  he := he }))
            else Except.ok none

/-- Embedding of `runways_by_icao[icao].append(runway)` together with the
`icao not in runways_by_icao` initialisation: the accumulator is the
insertion-ordered association list of the Python dict. -/
def insertRunway (acc : List (String × List RunwayRecord)) (code : String)
    (rwy : RunwayRecord) : List (String × List RunwayRecord) :=
  match acc with
  | [] => [(code, [rwy])]
  | (c, rs) :: rest =>
    if c = code then (c, rs ++ [rwy]) :: rest
    else (c, rs) :: insertRunway rest code rwy

/-- The row loop of `main` over the remaining rows, carrying the dict. -/
def mainRunwaysAux : List Row → List (String × List RunwayRecord) →
    Except PyExn (List (String × List RunwayRecord))
  | [], acc => Except.ok acc
  | r :: rs, acc =>
    match processRunwayRow r with
    | Except.error e => Except.error e
    | Except.ok none => mainRunwaysAux rs acc
    | Except.ok (some (c, rwy)) => mainRunwaysAux rs (insertRunway acc c rwy)

/-- The `runways_by_icao` dict produced by the row loop of `main`. -/
def mainRunways (rows : List Row) : Except PyExn (List (String × List RunwayRecord)) :=
  mainRunwaysAux rows []

/-- Key order of the emitted document: `sorted(runways_by_icao.items())`
compares the key strings first, and the keys are distinct, so the sort
orders by key under Python string comparison (code-point lexicographic,
here the lexicographic order on `List Char`). -/
def runwayKeyLE (a b : String × List RunwayRecord) : Prop :=
  a.1.data ≤ b.1.data

instance : DecidableRel runwayKeyLE := fun a b =>
  inferInstanceAs (Decidable (a.1.data ≤ b.1.data))

instance : IsTotal (String × List RunwayRecord) runwayKeyLE :=
  ⟨fun a b => le_total a.1.data b.1.data⟩

instance : IsTrans (String × List RunwayRecord) runwayKeyLE :=
  ⟨fun _ _ _ hab hbc => le_trans hab hbc⟩

/-- Embedding of `sorted_data = dict(sorted(runways_by_icao.items()))`
followed by `json.dump`: the emitted document is the key-sorted
association list. -/
def emitRunways (rows : List Row) : Except PyExn (List (String × List RunwayRecord)) :=
  (mainRunways rows).map (List.insertionSort runwayKeyLE)

/-- The runway records that the input rows file under a given airport
code, in input row order. -/
def collectFor (rows : List Row) (code : String) : List RunwayRecord :=
  rows.filterMap fun r =>
    match processRunwayRow r with
    | Except.ok (some (c, rwy)) => if c = code then some rwy else none
    | _ => none

/-- Lookup in the association-list dict (empty list when absent). -/
def assocGet (code : String) (acc : List (String × List RunwayRecord)) :
    List RunwayRecord :=
  match acc with
  | [] => []
  | (c, rs) :: rest => if c = code then rs else assocGet code rest

example :
    (do
      let e ← build_runway_end
        (insertKey (insertKey (fun _ => none) "le_ident" "04L")
          "le_displaced_threshold_ft" "150") "le"
      pure (e.map RunwayEnd.dt)) = Except.ok (some (some 150)) := by decide

/-- A JSON-serialisable Python value as appended by airpots-formatter.py:
the entries of the output array are 5-element lists of these. -/
inductive PyVal
  | str (s : String)
  | float (f : PyFloat)
  | int (z : ℤ)
  | none_
deriving DecidableEq

/-- Embedding of the code selection of airpots-formatter.py (lines 19-23):
`code = icao or ident` on the stripped fields. -/
def airportCode (row : Row) : String :=
  if pyStrip (rowStr row "icao_code") = "" then pyStrip (rowStr row "ident")
  else pyStrip (rowStr row "icao_code")

/-- Embedding of the essential-field check `not lat or not lon or not name`
of airpots-formatter.py (line 32): latitude and longitude by Python
truthiness of the raw `dict.get` result, the name after stripping. -/
def airportEssentialMissing (row : Row) : Bool :=
  !rowTruthy row "latitude_deg" || !rowTruthy row "longitude_deg"
    || pyStrip (rowStr row "name") == ""

/-- Embedding of one iteration of the row loop in `main` of
airpots-formatter.py (lines 17-43): `Except.ok none` when the row is
skipped by a `continue` (blank code, missing essential field, or a
`ValueError` caught while parsing), `Except.ok (some entry)` when the
5-element entry is appended, and `Except.error` for the uncaught
`OverflowError` of `int(float(elevation))` on an infinite elevation. -/
def processAirportRow (row : Row) : Except PyExn (Option (List PyVal)) :=
  if airportCode row = "" then Except.ok none
  else
    if airportEssentialMissing row then
      Except.ok none
    else
      match pyFloatOfString (rowStr row "latitude_deg") with
      | none => Except.ok none
      | some latF =>
        match pyFloatOfString (rowStr row "longitude_deg") with
        | none => Except.ok none
        | some lonF =>
          if rowTruthy row "elevation_ft" then
            match pyFloatOfString (rowStr row "elevation_ft") with
            | none => Except.ok none
            | some ef =>
              match pyIntOfFloat ef with
              | Except.ok z =>
                Except.ok (some [PyVal.str (airportCode row), PyVal.float latF,
                  PyVal.float lonF, PyVal.str (pyStrip (rowStr row "name")), PyVal.int z])
              | Except.error PyExn.valueError => Except.ok none
              | Except.error e => Except.error e
          else
            Except.ok (some [PyVal.str (airportCode row), PyVal.float latF,
              PyVal.float lonF, PyVal.str (pyStrip (rowStr row "name")), PyVal.none_])

/-- The `airports` list built by `main` of airpots-formatter.py, in input
row order. -/
def mainAirports : List Row → Except PyExn (List (List PyVal))
  | [] => Except.ok []
  | r :: rs =>
    match processAirportRow r with
    | Except.error e => Except.error e
    | Except.ok none => mainAirports rs
    | Except.ok (some a) => (mainAirports rs).map (fun l => a :: l)

/-- The float-then-truncate parse used for the airport elevation field,
as a total lookup: `some z` exactly when `int(float(s))` evaluates to `z`
without an exception. -/
def floatTruncParse (s : String) : Option ℤ :=
  match pyFloatOfString s with
  | some f => (pyIntOfFloat f).toOption
  | none => none

/-- Embedding of the input-path resolution of airpots-formatter.py
(line 6): the first positional argument or the fixed default. -/
def airportSource (argv : List String) : String :=
  (argv.get? 1).getD "airports.csv"

/-- Replace every non-overlapping occurrence of `pat` in `l` by `sub`,
scanning left to right — the semantics of Python `str.replace` for a
non-empty pattern.  The extra fuel argument makes the recursion
structural; it is called with fuel `l.length`, which is always enough
because each step consumes at least one character. -/
def replaceAllF (pat sub : List Char) : ℕ → List Char → List Char
  | _, [] => []
  | 0, l => l
  | fuel + 1, c :: rest =>
    if pat ≠ [] ∧ (c :: rest).take pat.length = pat then
      sub ++ replaceAllF pat sub fuel ((c :: rest).drop pat.length)
    else c :: replaceAllF pat sub fuel rest

/-- Embedding of Python `s.replace(pat, sub)` for a non-empty pattern. -/
def pyReplace (s pat sub : String) : String :=
  ⟨replaceAllF pat.data sub.data s.data.length s.data⟩

/-- Embedding of the output-path resolution of airpots-formatter.py
(line 7): the second positional argument, defaulting to the input path
with every occurrence of `.csv` replaced by `.json`. -/
def airportDest (argv : List String) : String :=
  (argv.get? 2).getD (pyReplace (airportSource argv) ".csv" ".json")

/-- Embedding of `INPUT_FILE` of scripts/runways-formatter.py (line 23):
`Path.home() / "Downloads" / "runways.csv"`.  The home directory is a
parameter (it comes from the environment); the command line is also a
parameter, which the script never reads. -/
def runwaysInputFile (home : String) (argv : List String) : String :=
  have _ := argv
  home ++ "/Downloads/runways.csv"

/-- Embedding of `OUTPUT_FILE` of scripts/runways-formatter.py (line 24):
`Path(__file__).parent.parent / "data" / "runways.json"`, with the
grandparent directory of the script as a parameter; the command line is
never read. -/
def runwaysOutputFile (scriptRoot : String) (argv : List String) : String :=
  have _ := argv
  scriptRoot ++ "/data/runways.json"

/-- Embedding of `INPUT_FILE` of scripts/add-elevation.py (line 12): a
fixed literal path; the command line is never read, and the script has no
separate output path (it rewrites its input file). -/
def addElevationInputFile (argv : List String) : String :=
  have _ := argv
  "data/ad-lads/argentina.json"

/-- Concrete runway row used by witnesses: ends with the given idents
(blank means the field is empty) and a displaced-threshold value on the
low end. -/
def sampleRunwayRow (code leId heId dtv : String) : Row := fun k =>
  if k = "airport_ident" then some code
  else if k = "le_ident" then some leId
  else if k = "he_ident" then some heId
  else if k = "le_displaced_threshold_ft" then some dtv
  else none

/-- Concrete airport row used by witnesses. -/
def sampleAirportRow (ident lat lon name elevation : String) : Row := fun k =>
  if k = "ident" then some ident
  else if k = "latitude_deg" then some lat
  else if k = "longitude_deg" then some lon
  else if k = "name" then some name
  else if k = "elevation_ft" then some elevation
  else none

example : processAirportRow (sampleAirportRow "SABE" "-34.5" "-58.4" "Aeroparque" "18") =
    Except.ok (some [PyVal.str "SABE", PyVal.float (PyFloat.finite (-345) 1),
      PyVal.float (PyFloat.finite (-584) 1), PyVal.str "Aeroparque", PyVal.int 18]) := by
  decide

example : processAirportRow (sampleAirportRow "SABE" "-34.5" "-58.4" "Aeroparque" "oops") =
    Except.ok none := by decide

example : processRunwayRow (sampleRunwayRow "KJFK" "04L" "22R" "0") =
    Except.ok (some ("KJFK",
      { l := none, w := none, s := none, lit := none, cls := none
        le := some { id := "04L", lat := none, lon := none, elev := none, hdg := none, dt := none }
        he := some { id := "22R", lat := none, lon := none, elev := none, hdg := none, dt := none } })) := by
  decide

example : pyReplace "airports.csv" ".csv" ".json" = "airports.json" := by decide

theorem pySlice_of_le (s : String) (n : ℕ) (h : s.data.length ≤ n) : pySlice s n = s := by
  cases s with
  | mk d => simp only [pySlice, List.take_of_length_le h]

theorem one_le_length_of_ne_empty (s : String) (h : s ≠ "") : 1 ≤ s.data.length := by
  cases s with
  | mk d =>
    cases d with
    | nil => exact absurd rfl h
    | cons c cs => simp

/-- C1: the Surface Classifier normalizes by uppercasing and stripping,
answers unidentified (`none`) on the empty result, otherwise returns the
table entry for the first of the whole string, its first 3, first 2 and
first 1 characters that is a table key, unidentified when none is — and,
being a total Lean function, never raises; concretely `ASXYZ` classifies
as `PG` through the 1-character prefix, `ZZZZZ` is unidentified, and
classification ignores case and surrounding whitespace on `ASPH-G`. -/
theorem C1_surface_classifier_cascade :
    (∀ s, categorize_surface s = surfaceCascadeClaim s)
    ∧ categorize_surface "ASXYZ" = some "PG"
    ∧ categorize_surface "ZZZZZ" = none
    ∧ categorize_surface "ASPH-G" = some "PG"
    ∧ categorize_surface "asph-g" = some "PG"
    ∧ categorize_surface " ASPH-G " = some "PG" := by
  refine ⟨fun s => ?_, by decide, by decide, by decide, by decide, by decide⟩
  unfold categorize_surface surfaceCascadeClaim
  by_cases h0 : normSurface s = ""
  · simp [h0]
  · rw [if_neg h0, if_neg h0]
    have hlen1 : 1 ≤ (normSurface s).data.length := one_le_length_of_ne_empty _ h0
    cases hW : SURFACE_CATEGORIES (normSurface s) with
    | some c => simp [Option.orElse]
    | none =>
      rw [if_neg (by simp)]
      cases h3 : SURFACE_CATEGORIES (pySlice (normSurface s) 3) with
      | some c =>
        have hl3 : 3 ≤ (normSurface s).data.length := by
          by_contra hn
          push_neg at hn
          rw [pySlice_of_le _ 3 (by omega), hW] at h3
          exact Option.noConfusion h3
        rw [if_pos ⟨hl3, rfl⟩]
        simp [Option.orElse]
      | none =>
        rw [if_neg (by simp)]
        cases h2 : SURFACE_CATEGORIES (pySlice (normSurface s) 2) with
        | some c =>
          have hl2 : 2 ≤ (normSurface s).data.length := by
            by_contra hn
            push_neg at hn
            rw [pySlice_of_le _ 2 (by omega), hW] at h2
            exact Option.noConfusion h2
          rw [if_pos ⟨hl2, rfl⟩]
          simp [Option.orElse]
        | none =>
          rw [if_neg (by simp)]
          cases h1 : SURFACE_CATEGORIES (pySlice (normSurface s) 1) with
          | some c =>
            rw [if_pos ⟨hlen1, rfl⟩]
            simp [Option.orElse]
          | none =>
            rw [if_neg (by simp)]
            simp [Option.orElse]

/-- C2 (counterexample): the claim that `parse_int` never lets an
exception reach the caller is false — on the input string `inf` the
`float` parse succeeds with an infinity and `int` raises an
`OverflowError` that the `except ValueError` clause does not cover. -/
theorem C2_parse_int_inf_raises :
    parse_int "inf" = Except.error PyExn.overflowError := by decide

/-- C2 (amended): `parse_float` is a total function returning a value or
absent, and both functions return absent when the trimmed input is empty
or the numeric parse fails; `parse_int` also never raises, except that an
input parsing to an infinite float (such as `inf`) escapes with an
`OverflowError`, and that is the only escaping exception. -/
theorem C2_parsers_total_amended (s : String) :
    (parse_float s = none ∨ ∃ f, parse_float s = some f)
    ∧ (pyStrip s = "" → parse_float s = none ∧ parse_int s = Except.ok none)
    ∧ (pyFloatOfString s = none → parse_float s = none ∧ parse_int s = Except.ok none)
    ∧ ∀ e, parse_int s = Except.error e →
        e = PyExn.overflowError ∧
          (pyFloatOfString s = some PyFloat.inf ∨ pyFloatOfString s = some PyFloat.neginf) := by
  refine ⟨?_, ?_, ?_, ?_⟩
  · cases h : parse_float s with
    | none => exact Or.inl rfl
    | some f => exact Or.inr ⟨f, rfl⟩
  · intro h
    unfold parse_float parse_int
    rw [if_pos h, if_pos h]
    exact ⟨rfl, rfl⟩
  · intro h
    unfold parse_float parse_int
    by_cases hb : pyStrip s = ""
    · rw [if_pos hb, if_pos hb]; exact ⟨rfl, rfl⟩
    · rw [if_neg hb, if_neg hb, h]; exact ⟨rfl, rfl⟩
  · intro e h
    unfold parse_int at h
    by_cases hb : pyStrip s = ""
    · rw [if_pos hb] at h
      exact Except.noConfusion h
    · rw [if_neg hb] at h
      cases hf : pyFloatOfString s with
      | none => rw [hf] at h; exact Except.noConfusion h
      | some f =>
        rw [hf] at h
        cases f with
        | finite n e10 => simp [pyIntOfFloat] at h
        | nan => simp [pyIntOfFloat] at h
        | inf =>
          simp only [pyIntOfFloat] at h
          injection h with h'
          exact ⟨h'.symm, Or.inl rfl⟩
        | neginf =>
          simp only [pyIntOfFloat] at h
          injection h with h'
          exact ⟨h'.symm, Or.inr rfl⟩

/-- C2 (witness): the amended theorem applied at the blank input and at
the overflowing input `inf`. -/
theorem C2_parsers_total_amended_witness :
    (parse_float "" = none ∧ parse_int "" = Except.ok none)
    ∧ (PyExn.overflowError = PyExn.overflowError
        ∧ (pyFloatOfString "inf" = some PyFloat.inf
            ∨ pyFloatOfString "inf" = some PyFloat.neginf)) :=
  ⟨(C2_parsers_total_amended "").2.1 (by decide),
   (C2_parsers_total_amended "inf").2.2.2 PyExn.overflowError (by decide)⟩

/-- C9 (counterexample): the claim that every tool accepts optional
positional input and output paths is false — the Elevation Enricher and
the Runway Normalizer resolve their paths to fixed values no matter what
positional arguments are passed. -/
theorem C9_fixed_paths_ignore_argv :
    addElevationInputFile ["add-elevation.py", "custom.json", "out.json"]
        = "data/ad-lads/argentina.json"
    ∧ "data/ad-lads/argentina.json" ≠ "custom.json"
    ∧ runwaysInputFile "/home/user" ["runways-formatter.py", "in.csv", "out.json"]
        = "/home/user/Downloads/runways.csv"
    ∧ "/home/user/Downloads/runways.csv" ≠ "in.csv" := by
  refine ⟨rfl, by decide, by decide, by decide⟩

/-- C9 (amended): only the Airport Normalizer accepts optional positional
input-path and output-path arguments with fixed defaults (the output
default replaces `.csv` by `.json` in the input path); the Runway
Normalizer and the Elevation Enricher use fixed paths — the Runway
Normalizer's input default depending on the home directory — and ignore
the command line entirely.  None of the tools reads flags or a
configuration file. -/
theorem C9_cli_surface_amended :
    (∀ a s rest, airportSource (a :: s :: rest) = s)
    ∧ (∀ a s d rest, airportDest (a :: s :: d :: rest) = d)
    ∧ airportSource ["airpots-formatter.py"] = "airports.csv"
    ∧ airportDest ["airpots-formatter.py"] = "airports.json"
    ∧ (∀ a s, airportDest [a, s] = pyReplace s ".csv" ".json")
    ∧ (∀ home argv argv2, runwaysInputFile home argv = runwaysInputFile home argv2)
    ∧ (∀ root argv argv2, runwaysOutputFile root argv = runwaysOutputFile root argv2)
    ∧ (∀ argv argv2, addElevationInputFile argv = addElevationInputFile argv2) :=
  ⟨fun _ _ _ => rfl, fun _ _ _ _ => rfl, by decide, by decide, fun _ _ => rfl,
   fun _ _ _ => rfl, fun _ _ _ => rfl, fun _ _ => rfl⟩

theorem build_runway_end_blank (row : Row) (side : String)
    (h : pyStrip (rowStr row (side ++ "_ident")) = "") :
    build_runway_end row side = Except.ok none := by
  unfold build_runway_end
  rw [if_pos h]

theorem build_runway_end_eq_ok_some {row : Row} {side : String} {e : RunwayEnd}
    (h : build_runway_end row side = Except.ok (some e)) :
    ∃ elev dtv,
      parse_int (rowStr row (side ++ "_elevation_ft")) = Except.ok elev
      ∧ parse_int (rowStr row (side ++ "_displaced_threshold_ft")) = Except.ok dtv
      ∧ e = { id := pyStrip (rowStr row (side ++ "_ident"))
              lat := (parse_float (rowStr row (side ++ "_latitude_deg"))).map
                (fun f => pyRoundF f 6)
              lon := (parse_float (rowStr row (side ++ "_longitude_deg"))).map
                (fun f => pyRoundF f 6)
              elev := elev
              hdg := (parse_float (rowStr row (side ++ "_heading_degT"))).map
                (fun f => pyRoundF f 1)
              dt := match dtv with
                    | some d => if 0 < d then some d else none
                    | none => none } := by
  unfold build_runway_end at h
  by_cases hid : pyStrip (rowStr row (side ++ "_ident")) = ""
  · rw [if_pos hid] at h
    simp at h
  · rw [if_neg hid] at h
    cases hel : parse_int (rowStr row (side ++ "_elevation_ft")) with
    | error e2 => rw [hel] at h; exact Except.noConfusion h
    | ok elev =>
      rw [hel] at h
      cases hdt : parse_int (rowStr row (side ++ "_displaced_threshold_ft")) with
      | error e2 => rw [hdt] at h; exact Except.noConfusion h
      | ok dtv =>
        rw [hdt] at h
        refine ⟨elev, dtv, rfl, rfl, ?_⟩
        injection h with h1
        injection h1 with h2
        exact h2.symm

theorem processRunwayRow_blank_code (row : Row)
    (h : pyStrip (rowStr row "airport_ident") = "") :
    processRunwayRow row = Except.ok none := by
  unfold processRunwayRow
  rw [if_pos h]

theorem processRunwayRow_eq_ok_some {row : Row} {c : String} {rwy : RunwayRecord}
    (h : processRunwayRow row = Except.ok (some (c, rwy))) :
    c = pyStrip (rowStr row "airport_ident") ∧ pyStrip (rowStr row "airport_ident") ≠ ""
    ∧ ∃ length width le he,
        parse_int (rowStr row "length_ft") = Except.ok length
        ∧ parse_int (rowStr row "width_ft") = Except.ok width
        ∧ build_runway_end row "le" = Except.ok le
        ∧ build_runway_end row "he" = Except.ok he
        ∧ (le.isSome || he.isSome) = true
        ∧ rwy = { l := truthyInt length
                  w := truthyInt width
                  s := categorize_surface (pyStrip (rowStr row "surface"))
                  lit := if flagIsOne row "lighted" then some 1 else none
                  cls := if flagIsOne row "closed" then some 1 else none
                  le := le
                  he := he } := by
  unfold processRunwayRow at h
  by_cases hic : pyStrip (rowStr row "airport_ident") = ""
  · rw [if_pos hic] at h
    simp at h
  · rw [if_neg hic] at h
    cases hL : parse_int (rowStr row "length_ft") with
    | error e => rw [hL] at h; exact Except.noConfusion h
    | ok length =>
      rw [hL] at h
      cases hWd : parse_int (rowStr row "width_ft") with
      | error e => rw [hWd] at h; exact Except.noConfusion h
      | ok width =>
        rw [hWd] at h
        cases hle : build_runway_end row "le" with
        | error e => rw [hle] at h; exact Except.noConfusion h
        | ok le =>
          rw [hle] at h
          cases hhe : build_runway_end row "he" with
          | error e => rw [hhe] at h; exact Except.noConfusion h
          | ok he =>
            rw [hhe] at h
            dsimp only at h
            by_cases hcond : (le.isSome || he.isSome) = true
            · rw [if_pos hcond] at h
              injection h with h1
              injection h1 with h2
              injection h2 with hc hr
              exact ⟨hc.symm, hic, length, width, le, he, rfl, rfl, rfl, rfl, hcond, hr.symm⟩
            · rw [if_neg hcond] at h
              simp at h

/-- C5: a runway end built by `build_runway_end` carries a displaced
threshold `dt` exactly when the side's displaced-threshold field parses
as an int that is strictly positive; concretely, raw values `0` and `-5`
yield an end without `dt` and `150` yields `dt = 150`. -/
theorem C5_displaced_threshold (row : Row) (side : String) (e : RunwayEnd)
    (h : build_runway_end row side = Except.ok (some e)) :
    (∀ d : ℤ, e.dt = some d ↔
      parse_int (rowStr row (side ++ "_displaced_threshold_ft")) = Except.ok (some d)
        ∧ 0 < d)
    ∧ build_runway_end (sampleRunwayRow "X" "04L" "" "0") "le"
        = Except.ok (some ⟨"04L", none, none, none, none, none⟩)
    ∧ build_runway_end (sampleRunwayRow "X" "04L" "" "-5") "le"
        = Except.ok (some ⟨"04L", none, none, none, none, none⟩)
    ∧ build_runway_end (sampleRunwayRow "X" "04L" "" "150") "le"
        = Except.ok (some ⟨"04L", none, none, none, none, some 150⟩) := by
  refine ⟨?_, by decide, by decide, by decide⟩
  intro d
  obtain ⟨elev, dtv, hel, hdt, he⟩ := build_runway_end_eq_ok_some h
  subst he
  dsimp only
  cases dtv with
  | none =>
    rw [hdt]
    simp
  | some d0 =>
    rw [hdt]
    dsimp only
    by_cases hpos : 0 < d0
    · rw [if_pos hpos]
      constructor
      · intro h'
        injection h' with h''
        subst h''
        exact ⟨rfl, hpos⟩
      · rintro ⟨h1, -⟩
        simp only [Except.ok.injEq, Option.some.injEq] at h1
        rw [h1]
    · rw [if_neg hpos]
      constructor
      · intro h'
        exact Option.noConfusion h'
      · rintro ⟨h1, h2⟩
        simp only [Except.ok.injEq, Option.some.injEq] at h1
        subst h1
        exact absurd h2 hpos

/-- C5 (witness): the characterisation applied to a concrete row whose
low-end displaced threshold is the raw string `150`. -/
theorem C5_displaced_threshold_witness :
    RunwayEnd.dt ⟨"04L", none, none, none, none, some 150⟩ = some 150 ↔
      parse_int (rowStr (sampleRunwayRow "X" "04L" "" "150")
          ("le" ++ "_displaced_threshold_ft")) = Except.ok (some 150) ∧ (0 : ℤ) < 150 :=
  (C5_displaced_threshold (sampleRunwayRow "X" "04L" "" "150") "le"
    ⟨"04L", none, none, none, none, some 150⟩ (by decide)).1 150

/-- C6: an emitted RunwayRecord has `lit = 1` exactly when the raw
`lighted` field is exactly the string `1` (missing key defaulting to
`0`), likewise `cls` for `closed`; any other raw value leaves the key
omitted (`none`), and the value `0` is never written. -/
theorem C6_lighted_closed_flags (row : Row) (c : String) (rwy : RunwayRecord)
    (h : processRunwayRow row = Except.ok (some (c, rwy))) :
    rwy.lit = (if rowStrD row "lighted" "0" = "1" then some 1 else none)
    ∧ rwy.cls = (if rowStrD row "closed" "0" = "1" then some 1 else none)
    ∧ rwy.lit ≠ some 0 ∧ rwy.cls ≠ some 0 := by
  obtain ⟨-, -, length, width, le, he, -, -, -, -, -, hr⟩ := processRunwayRow_eq_ok_some h
  subst hr
  refine ⟨?_, ?_, ?_, ?_⟩
  · dsimp only
    simp [flagIsOne]
  · dsimp only
    simp [flagIsOne]
  · dsimp only
    by_cases hf : flagIsOne row "lighted" <;> simp [hf]
  · dsimp only
    by_cases hf : flagIsOne row "closed" <;> simp [hf]

/-- C6 (witness): the flag characterisation applied to a concrete row
whose `lighted` field is `1` and whose `closed` field is absent. -/
theorem C6_lighted_closed_flags_witness :
    RunwayRecord.lit
        ⟨none, none, none, some 1, none, some ⟨"04L", none, none, none, none, none⟩,
          some ⟨"22R", none, none, none, none, none⟩⟩
      = (if rowStrD (insertKey (sampleRunwayRow "KJFK" "04L" "22R" "") "lighted" "1")
          "lighted" "0" = "1" then some 1 else none) :=
  (C6_lighted_closed_flags
    (insertKey (sampleRunwayRow "KJFK" "04L" "22R" "") "lighted" "1") "KJFK"
    ⟨none, none, none, some 1, none, some ⟨"04L", none, none, none, none, none⟩,
      some ⟨"22R", none, none, none, none, none⟩⟩
    (by decide)).1

theorem processAirportRow_bad_elev (row : Row)
    (helev : rowTruthy row "elevation_ft" = true)
    (hbad : floatTruncParse (rowStr row "elevation_ft") = none) :
    processAirportRow row = Except.ok none
      ∨ ∃ e, processAirportRow row = Except.error e := by
  unfold processAirportRow
  by_cases hcode : airportCode row = ""
  · rw [if_pos hcode]
    exact Or.inl rfl
  · rw [if_neg hcode]
    by_cases hmiss : airportEssentialMissing row = true
    · rw [if_pos hmiss]
      exact Or.inl rfl
    · rw [if_neg hmiss]
      cases hlat : pyFloatOfString (rowStr row "latitude_deg") with
      | none => exact Or.inl rfl
      | some latF =>
        cases hlon : pyFloatOfString (rowStr row "longitude_deg") with
        | none => exact Or.inl rfl
        | some lonF =>
          dsimp only
          rw [if_pos helev]
          unfold floatTruncParse at hbad
          revert hbad
          cases hef : pyFloatOfString (rowStr row "elevation_ft") with
          | none => intro hbad; exact Or.inl rfl
          | some ef =>
            intro hbad
            dsimp only at hbad ⊢
            revert hbad
            cases hint : pyIntOfFloat ef with
            | ok z =>
              intro hbad
              simp [Except.toOption] at hbad
            | error e =>
              intro hbad
              cases e with
              | valueError => exact Or.inl rfl
              | overflowError => exact Or.inr ⟨PyExn.overflowError, rfl⟩

theorem mainAirports_remove (row : Row)
    (hrow : processAirportRow row = Except.ok none
      ∨ ∃ e, processAirportRow row = Except.error e) :
    ∀ pre post out, mainAirports (pre ++ row :: post) = Except.ok out →
      mainAirports (pre ++ post) = Except.ok out := by
  intro pre
  induction pre with
  | nil =>
    intro post out h
    simp only [List.nil_append] at h ⊢
    rcases hrow with h1 | ⟨e, h1⟩
    · unfold mainAirports at h
      rw [h1] at h
      exact h
    · unfold mainAirports at h
      rw [h1] at h
      exact Except.noConfusion h
  | cons p ps ih =>
    intro post out h
    simp only [List.cons_append] at h ⊢
    unfold mainAirports at h ⊢
    revert h
    cases hp : processAirportRow p with
    | error e => intro h; exact Except.noConfusion h
    | ok o =>
      cases o with
      | none =>
        intro h
        exact ih post out h
      | some a =>
        intro h
        dsimp only at h ⊢
        revert h
        cases hm : mainAirports (ps ++ row :: post) with
        | error e => intro h; exact Except.noConfusion h
        | ok l =>
          intro h
          rw [ih post l hm]
          exact h

/-- C3: a raw airport row that passes code selection and the
latitude/longitude/name presence checks but whose elevation field is
non-empty and fails the float-then-truncate parse is rejected whole: the
row contributes `ok none` (or lets the uncaught overflow escape, in which
case nothing at all is emitted), and removing the row from the input
leaves the successfully produced output unchanged — no entry with an
absent elevation is emitted for it. -/
theorem C3_bad_elevation_rejects_record (row : Row)
    (hcode : airportCode row ≠ "")
    (hlat : rowTruthy row "latitude_deg" = true)
    (hlon : rowTruthy row "longitude_deg" = true)
    (hname : pyStrip (rowStr row "name") ≠ "")
    (helev : rowTruthy row "elevation_ft" = true)
    (hbad : floatTruncParse (rowStr row "elevation_ft") = none) :
    (processAirportRow row = Except.ok none
      ∨ ∃ e, processAirportRow row = Except.error e)
    ∧ ∀ pre post out, mainAirports (pre ++ row :: post) = Except.ok out →
        mainAirports (pre ++ post) = Except.ok out := by
  have h := processAirportRow_bad_elev row helev hbad
  have hcode2 := hcode
  have hname2 := hname
  have hlat2 := hlat
  have hlon2 := hlon
  exact ⟨h, mainAirports_remove row h⟩

/-- C3 (witness): the rejection theorem applied to a concrete row with a
malformed elevation value; the row contributes nothing to the output. -/
theorem C3_bad_elevation_rejects_record_witness :
    mainAirports ([] ++ []) = Except.ok ([] : List (List PyVal)) :=
  (C3_bad_elevation_rejects_record
    (sampleAirportRow "SABE" "-34.5" "-58.4" "Aeroparque" "oops")
    (by decide) (by decide) (by decide) (by decide) (by decide) (by decide)).2
    [] [] [] (by decide)

theorem processAirportRow_shape {row : Row} {entry : List PyVal}
    (h : processAirportRow row = Except.ok (some entry)) :
    ∃ la lo el,
      entry = [PyVal.str (airportCode row), PyVal.float la, PyVal.float lo,
        PyVal.str (pyStrip (rowStr row "name")), el]
      ∧ ((rowTruthy row "elevation_ft" = false ∧ el = PyVal.none_)
          ∨ (rowTruthy row "elevation_ft" = true ∧ ∃ z, el = PyVal.int z)) := by
  unfold processAirportRow at h
  by_cases hcode : airportCode row = ""
  · rw [if_pos hcode] at h
    simp at h
  · rw [if_neg hcode] at h
    by_cases hmiss : airportEssentialMissing row = true
    · rw [if_pos hmiss] at h
      simp at h
    · rw [if_neg hmiss] at h
      cases hlat : pyFloatOfString (rowStr row "latitude_deg") with
      | none => rw [hlat] at h; simp at h
      | some latF =>
        rw [hlat] at h
        cases hlon : pyFloatOfString (rowStr row "longitude_deg") with
        | none => rw [hlon] at h; simp at h
        | some lonF =>
          rw [hlon] at h
          dsimp only at h
          cases helev : rowTruthy row "elevation_ft" with
          | false =>
            rw [helev] at h
            rw [if_neg (by simp)] at h
            injection h with h1
            injection h1 with h2
            exact ⟨latF, lonF, PyVal.none_, h2.symm, Or.inl ⟨rfl, rfl⟩⟩
          | true =>
            rw [helev] at h
            rw [if_pos rfl] at h
            revert h
            cases hef : pyFloatOfString (rowStr row "elevation_ft") with
            | none => intro h; simp at h
            | some ef =>
              intro h
              dsimp only at h
              revert h
              cases hint : pyIntOfFloat ef with
              | ok z =>
                intro h
                injection h with h1
                injection h1 with h2
                exact ⟨latF, lonF, PyVal.int z, h2.symm, Or.inr ⟨rfl, z, rfl⟩⟩
              | error e =>
                intro h
                cases e with
                | valueError => simp at h
                | overflowError => simp at h

theorem mainAirports_mem_shape :
    ∀ rows out, mainAirports rows = Except.ok out → ∀ entry ∈ out,
      ∃ row ∈ rows, processAirportRow row = Except.ok (some entry) := by
  intro rows
  induction rows with
  | nil =>
    intro out h entry hm
    unfold mainAirports at h
    injection h with h1
    subst h1
    simp at hm
  | cons r rs ih =>
    intro out h entry hm
    unfold mainAirports at h
    revert h
    cases hp : processAirportRow r with
    | error e => intro h; exact Except.noConfusion h
    | ok o =>
      cases o with
      | none =>
        intro h
        obtain ⟨row, hrow, hpr⟩ := ih out h entry hm
        exact ⟨row, List.mem_cons_of_mem _ hrow, hpr⟩
      | some a =>
        intro h
        dsimp only at h
        revert h
        cases hm2 : mainAirports rs with
        | error e => intro h; exact Except.noConfusion h
        | ok l =>
          intro h
          injection h with h1
          subst h1
          rcases List.mem_cons.mp hm with he | hl
          · subst he
            exact ⟨r, List.mem_cons_self _ _, hp⟩
          · obtain ⟨row, hrow, hpr⟩ := ih l hm2 entry hl
            exact ⟨row, List.mem_cons_of_mem _ hrow, hpr⟩

/-- C10: every entry that the Airport Normalizer emits is exactly a
5-element array of code, latitude, longitude, name and elevation; when
the raw elevation field is absent or empty the fifth element is the null
value, and the 4-element shape is never produced. -/
theorem C10_five_element_entries (rows : List Row) (out : List (List PyVal))
    (h : mainAirports rows = Except.ok out) :
    (∀ entry ∈ out, entry.length = 5
      ∧ ∃ c la lo n el,
          entry = [PyVal.str c, PyVal.float la, PyVal.float lo, PyVal.str n, el]
          ∧ (el = PyVal.none_ ∨ ∃ z, el = PyVal.int z))
    ∧ ∀ row entry, processAirportRow row = Except.ok (some entry) →
        rowTruthy row "elevation_ft" = false → entry.get? 4 = some PyVal.none_ := by
  constructor
  · intro entry hm
    obtain ⟨row, -, hpr⟩ := mainAirports_mem_shape rows out h entry hm
    obtain ⟨la, lo, el, hent, hel⟩ := processAirportRow_shape hpr
    subst hent
    refine ⟨rfl, airportCode row, la, lo, pyStrip (rowStr row "name"), el, rfl, ?_⟩
    rcases hel with ⟨-, hel⟩ | ⟨-, z, hel⟩
    · exact Or.inl hel
    · exact Or.inr ⟨z, hel⟩
  · intro row entry hpr hfalse
    obtain ⟨la, lo, el, hent, hel⟩ := processAirportRow_shape hpr
    subst hent
    rcases hel with ⟨-, hel⟩ | ⟨htrue, -⟩
    · subst hel
      rfl
    · rw [hfalse] at htrue
      exact Bool.noConfusion htrue

/-- C10 (witness): the shape theorem applied to a single concrete row
whose elevation field is empty. -/
theorem C10_five_element_entries_witness :
    ([PyVal.str "SABE", PyVal.float (PyFloat.finite (-345) 1),
      PyVal.float (PyFloat.finite (-584) 1), PyVal.str "Aeroparque",
      PyVal.none_] : List PyVal).get? 4 = some PyVal.none_ :=
  (C10_five_element_entries
    [sampleAirportRow "SABE" "-34.5" "-58.4" "Aeroparque" ""]
    [[PyVal.str "SABE", PyVal.float (PyFloat.finite (-345) 1),
      PyVal.float (PyFloat.finite (-584) 1), PyVal.str "Aeroparque", PyVal.none_]]
    (by decide)).2
    (sampleAirportRow "SABE" "-34.5" "-58.4" "Aeroparque" "")
    [PyVal.str "SABE", PyVal.float (PyFloat.finite (-345) 1),
      PyVal.float (PyFloat.finite (-584) 1), PyVal.str "Aeroparque", PyVal.none_]
    (by decide) (by decide)

theorem processRunwayRow_good {row : Row} {c : String} {rwy : RunwayRecord}
    (h : processRunwayRow row = Except.ok (some (c, rwy))) :
    rwy.le.isSome = true ∨ rwy.he.isSome = true := by
  obtain ⟨-, -, length, width, le, he, -, -, -, -, hcond, hr⟩ := processRunwayRow_eq_ok_some h
  subst hr
  simpa using hcond

theorem processRunwayRow_both_blank (row : Row)
    (hle : pyStrip (rowStr row "le_ident") = "")
    (hhe : pyStrip (rowStr row "he_ident") = "") :
    processRunwayRow row = Except.ok none
      ∨ ∃ e, processRunwayRow row = Except.error e := by
  unfold processRunwayRow
  by_cases hic : pyStrip (rowStr row "airport_ident") = ""
  · rw [if_pos hic]
    exact Or.inl rfl
  · rw [if_neg hic]
    cases hL : parse_int (rowStr row "length_ft") with
    | error e => exact Or.inr ⟨e, rfl⟩
    | ok length =>
      dsimp only
      cases hWd : parse_int (rowStr row "width_ft") with
      | error e => exact Or.inr ⟨e, rfl⟩
      | ok width =>
        dsimp only
        rw [build_runway_end_blank row "le" hle, build_runway_end_blank row "he" hhe]
        exact Or.inl rfl

theorem mainRunwaysAux_remove (row : Row)
    (hrow : processRunwayRow row = Except.ok none
      ∨ ∃ e, processRunwayRow row = Except.error e) :
    ∀ pre post acc res, mainRunwaysAux (pre ++ row :: post) acc = Except.ok res →
      mainRunwaysAux (pre ++ post) acc = Except.ok res := by
  intro pre
  induction pre with
  | nil =>
    intro post acc res h
    simp only [List.nil_append] at h ⊢
    unfold mainRunwaysAux at h
    rcases hrow with h1 | ⟨e, h1⟩
    · rw [h1] at h
      exact h
    · rw [h1] at h
      exact Except.noConfusion h
  | cons p ps ih =>
    intro post acc res h
    simp only [List.cons_append] at h ⊢
    unfold mainRunwaysAux at h ⊢
    revert h
    cases hp : processRunwayRow p with
    | error e => intro h; exact Except.noConfusion h
    | ok o =>
      cases o with
      | none => intro h; exact ih post acc res h
      | some pr =>
        obtain ⟨c, rwy⟩ := pr
        intro h
        exact ih post (insertRunway acc c rwy) res h

theorem emitRunways_remove (row : Row)
    (hrow : processRunwayRow row = Except.ok none
      ∨ ∃ e, processRunwayRow row = Except.error e) :
    ∀ pre post out, emitRunways (pre ++ row :: post) = Except.ok out →
      emitRunways (pre ++ post) = Except.ok out := by
  intro pre post out h
  unfold emitRunways mainRunways at h ⊢
  revert h
  cases hm : mainRunwaysAux (pre ++ row :: post) [] with
  | error e => intro h; exact Except.noConfusion h
  | ok res =>
    intro h
    rw [mainRunwaysAux_remove row hrow pre post [] res hm]
    exact h

theorem insertRunway_forall (P : RunwayRecord → Prop) (code : String) (rwy : RunwayRecord)
    (hr : P rwy) :
    ∀ acc, (∀ c l, (c, l) ∈ acc → ∀ r ∈ l, P r) →
      ∀ c l, (c, l) ∈ insertRunway acc code rwy → ∀ r ∈ l, P r := by
  intro acc
  induction acc with
  | nil =>
    intro hacc c l hm r hrl
    simp only [insertRunway, List.mem_singleton] at hm
    injection hm with h1 h2
    subst h2
    simp only [List.mem_singleton] at hrl
    subst hrl
    exact hr
  | cons hd tl ih =>
    obtain ⟨c0, rs0⟩ := hd
    intro hacc c l hm r hrl
    unfold insertRunway at hm
    by_cases hc : c0 = code
    · rw [if_pos hc] at hm
      rcases List.mem_cons.mp hm with he | htl
      · injection he with h1 h2
        subst h1
        subst h2
        rcases List.mem_append.mp hrl with hin | hin
        · exact hacc _ _ (List.mem_cons_self _ _) r hin
        · simp only [List.mem_singleton] at hin
          subst hin
          exact hr
      · exact hacc c l (List.mem_cons_of_mem _ htl) r hrl
    · rw [if_neg hc] at hm
      rcases List.mem_cons.mp hm with he | htl
      · injection he with h1 h2
        subst h1
        subst h2
        exact hacc _ _ (List.mem_cons_self _ _) r hrl
      · exact ih (fun c' l' hm' => hacc c' l' (List.mem_cons_of_mem _ hm')) c l htl r hrl

theorem mainRunwaysAux_forall (P : RunwayRecord → Prop)
    (hP : ∀ row c rwy, processRunwayRow row = Except.ok (some (c, rwy)) → P rwy) :
    ∀ rows acc res, (∀ c l, (c, l) ∈ acc → ∀ r ∈ l, P r) →
      mainRunwaysAux rows acc = Except.ok res →
      ∀ c l, (c, l) ∈ res → ∀ r ∈ l, P r := by
  intro rows
  induction rows with
  | nil =>
    intro acc res hacc h
    unfold mainRunwaysAux at h
    injection h with h1
    subst h1
    exact hacc
  | cons r rs ih =>
    intro acc res hacc h
    unfold mainRunwaysAux at h
    revert h
    cases hp : processRunwayRow r with
    | error e => intro h; exact Except.noConfusion h
    | ok o =>
      cases o with
      | none => intro h; exact ih acc res hacc h
      | some pr =>
        obtain ⟨c0, rwy0⟩ := pr
        intro h
        exact ih (insertRunway acc c0 rwy0) res
          (insertRunway_forall P c0 rwy0 (hP r c0 rwy0 hp) acc hacc) h

/-- C4: every RunwayRecord in the emitted document has at least one of
the ends `le`/`he`; a row whose two end-identifier fields are both blank
after trim contributes no record (removing it leaves any successfully
produced document unchanged), and a row with a blank airport-code field
is skipped entirely. -/
theorem C4_record_retention (row : Row) :
    (∀ rows out, emitRunways rows = Except.ok out →
      ∀ c l, (c, l) ∈ out → ∀ rwy ∈ l, rwy.le.isSome = true ∨ rwy.he.isSome = true)
    ∧ (pyStrip (rowStr row "le_ident") = "" → pyStrip (rowStr row "he_ident") = "" →
        (processRunwayRow row = Except.ok none
          ∨ ∃ e, processRunwayRow row = Except.error e)
        ∧ ∀ pre post out, emitRunways (pre ++ row :: post) = Except.ok out →
            emitRunways (pre ++ post) = Except.ok out)
    ∧ (pyStrip (rowStr row "airport_ident") = "" →
        processRunwayRow row = Except.ok none
        ∧ ∀ pre post out, emitRunways (pre ++ row :: post) = Except.ok out →
            emitRunways (pre ++ post) = Except.ok out) := by
  refine ⟨?_, ?_, ?_⟩
  · intro rows out h c l hm rwy hrl
    unfold emitRunways mainRunways at h
    revert h
    cases hmm : mainRunwaysAux rows [] with
    | error e => intro h; exact Except.noConfusion h
    | ok res =>
      intro h
      injection h with h1
      subst h1
      have hmem : (c, l) ∈ res := (List.perm_insertionSort runwayKeyLE res).mem_iff.mp hm
      exact mainRunwaysAux_forall _ (fun r c' rwy' hp => processRunwayRow_good hp)
        rows [] res (fun c' l' hm' => absurd hm' (List.not_mem_nil _)) hmm c l hmem rwy hrl
  · intro hle hhe
    have hrow := processRunwayRow_both_blank row hle hhe
    exact ⟨hrow, emitRunways_remove row hrow⟩
  · intro hic
    have hrow := processRunwayRow_blank_code row hic
    exact ⟨hrow, emitRunways_remove row (Or.inl hrow)⟩

/-- C4 (witness): the retention theorem applied to a concrete emitted
document with one runway, and to concrete rows with both end idents blank
and with a blank airport code. -/
theorem C4_record_retention_witness :
    (∀ rwy ∈ [(⟨none, none, none, none, none,
        some ⟨"04L", none, none, none, none, none⟩,
        some ⟨"22R", none, none, none, none, none⟩⟩ : RunwayRecord)],
      rwy.le.isSome = true ∨ rwy.he.isSome = true)
    ∧ (processRunwayRow (sampleRunwayRow "KJFK" "" "" "")
        = Except.ok none ∨ ∃ e, processRunwayRow (sampleRunwayRow "KJFK" "" "" "")
        = Except.error e)
    ∧ processRunwayRow (sampleRunwayRow "" "04L" "22R" "") = Except.ok none :=
  ⟨(C4_record_retention (fun _ => none)).1
      [sampleRunwayRow "KJFK" "04L" "22R" "0"]
      [("KJFK", [⟨none, none, none, none, none,
        some ⟨"04L", none, none, none, none, none⟩,
        some ⟨"22R", none, none, none, none, none⟩⟩])]
      (by decide) "KJFK" _ (by decide),
   ((C4_record_retention (sampleRunwayRow "KJFK" "" "" "")).2.1
      (by decide) (by decide)).1,
   ((C4_record_retention (sampleRunwayRow "" "04L" "22R" "")).2.2 (by decide)).1⟩

theorem rowStr_insert_empty {row : Row} {k : String} (hk : row k = none) (k' : String) :
    rowStr (insertKey row k "") k' = rowStr row k' := by
  unfold rowStr insertKey
  by_cases h : k' = k
  · subst h
    rw [if_pos rfl, hk]
    rfl
  · rw [if_neg h]

theorem rowTruthy_insert_empty {row : Row} {k : String} (hk : row k = none) (k' : String) :
    rowTruthy (insertKey row k "") k' = rowTruthy row k' := by
  unfold rowTruthy insertKey
  by_cases h : k' = k
  · subst h
    rw [if_pos rfl, hk]
    rfl
  · rw [if_neg h]

theorem flagIsOne_insert_empty {row : Row} {k : String} (hk : row k = none) (k' : String) :
    flagIsOne (insertKey row k "") k' = flagIsOne row k' := by
  unfold flagIsOne rowStrD insertKey
  by_cases h : k' = k
  · subst h
    rw [if_pos rfl, hk]
    rfl
  · rw [if_neg h]

theorem airportCode_insert_empty {row : Row} {k : String} (hk : row k = none) :
    airportCode (insertKey row k "") = airportCode row := by
  unfold airportCode
  simp only [rowStr_insert_empty hk]

theorem airportEssentialMissing_insert_empty {row : Row} {k : String} (hk : row k = none) :
    airportEssentialMissing (insertKey row k "") = airportEssentialMissing row := by
  unfold airportEssentialMissing
  simp only [rowStr_insert_empty hk, rowTruthy_insert_empty hk]

theorem build_runway_end_insert_empty {row : Row} {k : String} (hk : row k = none)
    (side : String) :
    build_runway_end (insertKey row k "") side = build_runway_end row side := by
  unfold build_runway_end
  simp only [rowStr_insert_empty hk]

theorem processRunwayRow_insert_empty {row : Row} {k : String} (hk : row k = none) :
    processRunwayRow (insertKey row k "") = processRunwayRow row := by
  unfold processRunwayRow
  simp only [rowStr_insert_empty hk, flagIsOne_insert_empty hk,
    build_runway_end_insert_empty hk]

theorem processAirportRow_insert_empty {row : Row} {k : String} (hk : row k = none) :
    processAirportRow (insertKey row k "") = processAirportRow row := by
  unfold processAirportRow
  simp only [rowStr_insert_empty hk, rowTruthy_insert_empty hk,
    airportCode_insert_empty hk, airportEssentialMissing_insert_empty hk]

/-- C8: for every raw record and every field name absent from it, mapping
that field to the empty string changes nothing — the Airport Normalizer
and the Runway Normalizer produce exactly the same result (same entries,
same keys, same errors) for the two records. -/
theorem C8_missing_key_equals_empty (row : Row) (k : String) (hk : row k = none) :
    processAirportRow (insertKey row k "") = processAirportRow row
    ∧ processRunwayRow (insertKey row k "") = processRunwayRow row :=
  ⟨processAirportRow_insert_empty hk, processRunwayRow_insert_empty hk⟩

/-- C8 (witness): the equivalence applied to the empty record and the
field name `lighted`. -/
theorem C8_missing_key_equals_empty_witness :
    processAirportRow (insertKey (fun _ => none) "lighted" "")
        = processAirportRow (fun _ => none)
    ∧ processRunwayRow (insertKey (fun _ => none) "lighted" "")
        = processRunwayRow (fun _ => none) :=
  C8_missing_key_equals_empty (fun _ => none) "lighted" rfl

theorem assocGet_cons (c c0 : String) (rs0 : List RunwayRecord)
    (tl : List (String × List RunwayRecord)) :
    assocGet c ((c0, rs0) :: tl) = if c0 = c then rs0 else assocGet c tl := rfl

theorem insertRunway_cons (c0 code : String) (rs0 : List RunwayRecord)
    (tl : List (String × List RunwayRecord)) (rwy : RunwayRecord) :
    insertRunway ((c0, rs0) :: tl) code rwy
      = if c0 = code then (c0, rs0 ++ [rwy]) :: tl
        else (c0, rs0) :: insertRunway tl code rwy := rfl

theorem assocGet_insert (c code : String) (rwy : RunwayRecord) :
    ∀ acc, assocGet c (insertRunway acc code rwy)
      = if code = c then assocGet c acc ++ [rwy] else assocGet c acc := by
  intro acc
  induction acc with
  | nil =>
    by_cases h : code = c
    · simp [insertRunway, assocGet, h]
    · simp [insertRunway, assocGet, h]
  | cons hd tl ih =>
    obtain ⟨c0, rs0⟩ := hd
    rw [insertRunway_cons]
    by_cases h0 : c0 = code
    · subst h0
      rw [if_pos rfl]
      by_cases hc : c0 = c
      · simp [assocGet_cons, hc]
      · simp [assocGet_cons, hc]
    · rw [if_neg h0]
      by_cases hc : c0 = c
      · have hcc : ¬code = c := fun h => h0 (hc.trans h.symm)
        simp [assocGet_cons, hc, hcc]
      · simp [assocGet_cons, hc, ih]

theorem insertRunway_keys (code : String) (rwy : RunwayRecord) :
    ∀ acc : List (String × List RunwayRecord),
      (insertRunway acc code rwy).map Prod.fst
        = if code ∈ acc.map Prod.fst then acc.map Prod.fst
          else acc.map Prod.fst ++ [code] := by
  intro acc
  induction acc with
  | nil => simp [insertRunway]
  | cons hd tl ih =>
    obtain ⟨c0, rs0⟩ := hd
    unfold insertRunway
    by_cases h0 : c0 = code
    · rw [if_pos h0]
      subst h0
      simp only [List.map_cons]
      rw [if_pos (List.mem_cons_self _ _)]
    · rw [if_neg h0]
      simp only [List.map_cons]
      rw [ih]
      by_cases hm : code ∈ tl.map Prod.fst
      · rw [if_pos hm, if_pos (List.mem_cons_of_mem _ hm)]
      · rw [if_neg hm]
        rw [if_neg (by
          intro hmem
          rcases List.mem_cons.mp hmem with he | ht
          · exact h0 he.symm
          · exact hm ht)]
        simp

theorem insertRunway_nodup (code : String) (rwy : RunwayRecord)
    (acc : List (String × List RunwayRecord))
    (h : (acc.map Prod.fst).Nodup) :
    ((insertRunway acc code rwy).map Prod.fst).Nodup := by
  rw [insertRunway_keys]
  by_cases hm : code ∈ acc.map Prod.fst
  · rw [if_pos hm]
    exact h
  · rw [if_neg hm]
    refine List.Nodup.append h (by simp) ?_
    intro a ha hb
    simp only [List.mem_singleton] at hb
    subst hb
    exact hm ha

theorem mainRunwaysAux_nodup :
    ∀ rows acc res, (acc.map Prod.fst).Nodup →
      mainRunwaysAux rows acc = Except.ok res → (res.map Prod.fst).Nodup := by
  intro rows
  induction rows with
  | nil =>
    intro acc res hacc h
    unfold mainRunwaysAux at h
    injection h with h1
    subst h1
    exact hacc
  | cons r rs ih =>
    intro acc res hacc h
    unfold mainRunwaysAux at h
    revert h
    cases hp : processRunwayRow r with
    | error e => intro h; exact Except.noConfusion h
    | ok o =>
      cases o with
      | none => intro h; exact ih acc res hacc h
      | some pr =>
        obtain ⟨c0, rwy0⟩ := pr
        intro h
        exact ih (insertRunway acc c0 rwy0) res (insertRunway_nodup c0 rwy0 acc hacc) h

theorem mainRunwaysAux_assocGet :
    ∀ rows acc res, mainRunwaysAux rows acc = Except.ok res →
      ∀ c, assocGet c res = assocGet c acc ++ collectFor rows c := by
  intro rows
  induction rows with
  | nil =>
    intro acc res h c
    unfold mainRunwaysAux at h
    injection h with h1
    subst h1
    simp [collectFor]
  | cons r rs ih =>
    intro acc res h c
    unfold mainRunwaysAux at h
    revert h
    cases hp : processRunwayRow r with
    | error e => intro h; exact Except.noConfusion h
    | ok o =>
      cases o with
      | none =>
        intro h
        rw [ih acc res h c]
        unfold collectFor
        simp [hp]
      | some pr =>
        obtain ⟨c0, rwy0⟩ := pr
        intro h
        rw [ih (insertRunway acc c0 rwy0) res h c, assocGet_insert c c0 rwy0 acc]
        unfold collectFor
        by_cases hc : c0 = c
        · subst hc
          rw [if_pos rfl]
          simp [hp]
        · rw [if_neg hc]
          simp [hp, hc]

theorem assocGet_of_mem :
    ∀ acc : List (String × List RunwayRecord), (acc.map Prod.fst).Nodup →
      ∀ c l, (c, l) ∈ acc → assocGet c acc = l := by
  intro acc
  induction acc with
  | nil =>
    intro _ c l hm
    exact absurd hm (List.not_mem_nil _)
  | cons hd tl ih =>
    obtain ⟨c0, rs0⟩ := hd
    intro hnd c l hm
    rcases List.mem_cons.mp hm with he | htl
    · injection he with h1 h2
      subst h1
      subst h2
      unfold assocGet
      rw [if_pos rfl]
    · unfold assocGet
      by_cases hc : c0 = c
      · exfalso
        subst hc
        have hin : c0 ∈ tl.map Prod.fst := List.mem_map.mpr ⟨(c0, l), htl, rfl⟩
        exact (List.nodup_cons.mp hnd).1 hin
      · rw [if_neg hc]
        exact ih (List.nodup_cons.mp hnd).2 c l htl

theorem data_ne_of_string_ne {a b : String} (h : a ≠ b) : a.data ≠ b.data := by
  intro hd
  apply h
  cases a
  cases b
  cases hd
  rfl

/-- C7: for every input sequence of runway rows, the emitted document's
airport-code keys are in strictly increasing code-point lexicographic
order, and the list filed under each key is exactly the sequence of
records produced by the input rows for that key in input order — never
re-sorted. -/
theorem C7_sorted_document (rows : List Row) (out : List (String × List RunwayRecord))
    (h : emitRunways rows = Except.ok out) :
    List.Pairwise (fun a b => a.1.data < b.1.data) out
    ∧ ∀ c l, (c, l) ∈ out → l = collectFor rows c := by
  unfold emitRunways mainRunways at h
  revert h
  cases hm : mainRunwaysAux rows [] with
  | error e => intro h; exact Except.noConfusion h
  | ok res =>
    intro h
    injection h with h1
    subst h1
    have hperm := List.perm_insertionSort runwayKeyLE res
    have hnd : (res.map Prod.fst).Nodup := mainRunwaysAux_nodup rows [] res (by simp) hm
    have hndout : ((List.insertionSort runwayKeyLE res).map Prod.fst).Nodup :=
      ((hperm.map Prod.fst).nodup_iff).mpr hnd
    constructor
    · have hsorted : List.Pairwise runwayKeyLE (List.insertionSort runwayKeyLE res) :=
        List.sorted_insertionSort runwayKeyLE res
      have hne : List.Pairwise (fun a b : String × List RunwayRecord => a.1 ≠ b.1)
          (List.insertionSort runwayKeyLE res) := by
        have := List.pairwise_map.mp hndout
        exact this.imp fun hab => hab
      exact (hsorted.and hne).imp fun hab =>
        lt_of_le_of_ne hab.1 (data_ne_of_string_ne hab.2)
    · intro c l hmem
      have hmem2 : (c, l) ∈ res := hperm.mem_iff.mp hmem
      have h2 := mainRunwaysAux_assocGet rows [] res hm c
      have h3 : assocGet c res = collectFor rows c := by simpa [assocGet] using h2
      rw [← h3]
      exact (assocGet_of_mem res hnd c l hmem2).symm

/-- C7 (witness): the ordering theorem applied to two concrete rows filed
under the codes `BBB` and `AAA` in that input order; the emitted document
lists `AAA` first. -/
theorem C7_sorted_document_witness :
    List.Pairwise
      (fun a b : String × List RunwayRecord => a.1.data < b.1.data)
      [("AAA", [(⟨none, none, none, none, none,
          some ⟨"09", none, none, none, none, none⟩,
          some ⟨"27", none, none, none, none, none⟩⟩ : RunwayRecord)]),
       ("BBB", [(⟨none, none, none, none, none,
          some ⟨"18", none, none, none, none, none⟩,
          some ⟨"36", none, none, none, none, none⟩⟩ : RunwayRecord)])]
    ∧ ∀ c l, (c, l) ∈
        [("AAA", [(⟨none, none, none, none, none,
            some ⟨"09", none, none, none, none, none⟩,
            some ⟨"27", none, none, none, none, none⟩⟩ : RunwayRecord)]),
         ("BBB", [(⟨none, none, none, none, none,
            some ⟨"18", none, none, none, none, none⟩,
            some ⟨"36", none, none, none, none, none⟩⟩ : RunwayRecord)])] →
        l = collectFor [sampleRunwayRow "BBB" "18" "36" "",
          sampleRunwayRow "AAA" "09" "27" ""] c :=
  C7_sorted_document
    [sampleRunwayRow "BBB" "18" "36" "", sampleRunwayRow "AAA" "09" "27" ""]
    [("AAA", [(⟨none, none, none, none, none,
        some ⟨"09", none, none, none, none, none⟩,
        some ⟨"27", none, none, none, none, none⟩⟩ : RunwayRecord)]),
     ("BBB", [(⟨none, none, none, none, none,
        some ⟨"18", none, none, none, none, none⟩,
        some ⟨"36", none, none, none, none, none⟩⟩ : RunwayRecord)])]
    (by decide)

end JoseFlys
